import Mathlib

/-!
Shallow embedding of the risk-weighted cash-flow and IRR engine of the
derisksolar whitepaper app.  JavaScript numbers are modelled as exact
rationals (`ℚ`); the single place where the source can produce `NaN`
(the unconditional `flows[2] += itcAmount` write on an array that may
have only two elements) is modelled with `Option ℚ` entries, `none`
standing for `NaN`.

Two copies of the Newton–Raphson solver exist in the source: the
page-local one (page.tsx lines 151–260), which perturbs on a flat
derivative, falls back to bisection and returns its last iterate when
the iteration cap is reached, and the utils one
(utils/cashFlowCalculations.ts), which throws at the cap and whose
caller recovers with a brute-force rate scan.  Both are embedded, in
namespaces `Page` and `Utils` respectively; `calculateCashFlows` uses
the utils solver, exactly as in the source.
-/

namespace DeriskSolar

/-- `riskLevel` enum of `types/risk.ts`: selects which of the two cost
scenarios (Low/High) is active. -/
inductive RiskLevel where
  | Low : RiskLevel
  | High : RiskLevel
deriving DecidableEq, Repr

/-- `RiskCategory` of `types/risk.ts`.  `approvalRisk` is declared
`number | undefined` in the source; the engine is only ever invoked
once the form has resolved it to a number, so it is embedded as `ℚ`. -/
structure RiskCategory where
  name : String
  riskLevel : RiskLevel
  devEx : ℚ
  capExIncrease : ℚ
  approvalRisk : ℚ
  goNoGoProbability : ℚ
  devExLow : ℚ
  devExHigh : ℚ
  capExIncreaseLow : ℚ
  capExIncreaseHigh : ℚ
  worstCaseScenario : ℚ
deriving DecidableEq, Repr

/-- `SystemParameters` of `types/system.ts` (fields read by the engine).
`projectLength` is a year count, embedded as `ℕ`. -/
structure SystemParameters where
  capacityFactor : ℚ
  systemSize : ℚ
  acSystemSize : ℚ
  projectLength : ℕ
  degradationRate : ℚ
deriving DecidableEq, Repr

/-- `FinancialParameters` of `types/financial.ts` (fields read by the
engine). -/
structure FinancialParameters where
  baseCaseCapExPerMW : ℚ
  baseOpExPerMW : ℚ
  electricityRate : ℚ
  priceEscalation : ℚ
  itcRate : ℚ
  nySunIncentivePerWatt : ℚ
deriving DecidableEq, Repr

/-- `calculateGoNoGoProbability` of `utils/cashFlowCalculations.ts`:
linear interpolation from probability 1 at `approvalRisk = 1` down to
`worstCaseScenario` at `approvalRisk = 15`. -/
def calculateGoNoGoProbability (approvalRisk worstCaseScenario : ℚ) : ℚ :=
  1 - ((1 - worstCaseScenario) / 14) * (approvalRisk - 1)

/-- `riskCategories.reduce((sum, cat) => sum + cat.devEx, 0)`. -/
def totalDevEx (riskCategories : List RiskCategory) : ℚ :=
  riskCategories.foldl (fun sum cat => sum + cat.devEx) 0

/-- `riskCategories.reduce((sum, cat) => sum + cat.capExIncrease, 0)`. -/
def totalCapExIncrease (riskCategories : List RiskCategory) : ℚ :=
  riskCategories.foldl (fun sum cat => sum + cat.capExIncrease) 0

/-- `baseCaseCapExPerMW * systemSize + totalCapExIncrease`. -/
def totalCapEx (riskCategories : List RiskCategory) (systemParams : SystemParameters)
    (financialParameters : FinancialParameters) : ℚ :=
  financialParameters.baseCaseCapExPerMW * systemParams.systemSize +
    totalCapExIncrease riskCategories

/-- `itcAmount = totalCapEx * itcRate`. -/
def itcAmount (riskCategories : List RiskCategory) (systemParams : SystemParameters)
    (financialParameters : FinancialParameters) : ℚ :=
  totalCapEx riskCategories systemParams financialParameters * financialParameters.itcRate

/-- `nySunAmount = systemSize * 1000000 * nySunIncentivePerWatt`. -/
def nySunAmount (systemParams : SystemParameters)
    (financialParameters : FinancialParameters) : ℚ :=
  systemParams.systemSize * 1000000 * financialParameters.nySunIncentivePerWatt

/-- `initialGoNoGo`: the product, over all categories, of the go/no-go
probability recomputed from `approvalRisk` and `worstCaseScenario`
(`riskCategories.reduce((prob, cat) => prob * calculateGoNoGoProbability(...), 1)`). -/
def initialGoNoGo (riskCategories : List RiskCategory) : ℚ :=
  riskCategories.foldl
    (fun prob cat =>
      prob * calculateGoNoGoProbability cat.approvalRisk cat.worstCaseScenario) 1

/-- `projectsReachingNTP`: the product of the *stored*
`goNoGoProbability` fields
(`riskCategories.reduce((prob, cat) => prob * cat.goNoGoProbability, 1)`). -/
def ntpProduct (riskCategories : List RiskCategory) : ℚ :=
  riskCategories.foldl (fun prob cat => prob * cat.goNoGoProbability) 1

/-- `annualGeneration = acSystemSize * (capacityFactor / 100) * 24 * 365`. -/
def annualGeneration (systemParams : SystemParameters) : ℚ :=
  systemParams.acSystemSize * (systemParams.capacityFactor / 100) * 24 * 365

/-- One operating-year cash flow of the source loop body, with
degradation factor `df` and escalation exponent `e` (`e = i - 2`):
`revenue - annualOpEx` where `revenue = (annualGeneration * df) *
(electricityRate * (1+priceEscalation)^e)` and `annualOpEx =
(baseOpExPerMW * systemSize) * (1+priceEscalation)^e`. -/
def opEntry (systemParams : SystemParameters) (financialParameters : FinancialParameters)
    (df : ℚ) (e : ℕ) : ℚ :=
  annualGeneration systemParams * df *
      (financialParameters.electricityRate *
        (1 + financialParameters.priceEscalation) ^ e) -
    financialParameters.baseOpExPerMW * systemParams.systemSize *
      (1 + financialParameters.priceEscalation) ^ e

/-- The `for (let i = 2; i <= years + 1; i++)` loop of
`calculateCashFlows`, threading the mutable `degradationFactor`
(decremented by `degradationRate` whenever `i > 2`) and the loop
counter `i`; `n` is the number of remaining iterations. -/
def opLoop (systemParams : SystemParameters) (financialParameters : FinancialParameters) :
    ℚ → ℕ → ℕ → List ℚ
  | _, _, 0 => []
  | degradationFactor, i, n + 1 =>
    let df :=
      if 2 < i then degradationFactor - systemParams.degradationRate
      else degradationFactor
    opEntry systemParams financialParameters df (i - 2) ::
      opLoop systemParams financialParameters df (i + 1) n

/-- The operating-year flow of year index `k + 2` in closed form:
degradation factor `1 - k * degradationRate`, escalation exponent `k`. -/
def opYearFlow (systemParams : SystemParameters)
    (financialParameters : FinancialParameters) (k : ℕ) : ℚ :=
  opEntry systemParams financialParameters (1 - (k : ℚ) * systemParams.degradationRate) k

/-- JS `l[2] += v` on an array `l` that always has at least two
elements in this program: if index 2 exists the entry is incremented;
if `l` has exactly two elements, JS reads `undefined`, adds `v`
(giving `NaN`), and writes it at index 2, extending the array — the
appended `none` models that `NaN`. -/
def jsAddIndexTwo (l : List ℚ) (v : ℚ) : List (Option ℚ) :=
  match l with
  | a :: b :: c :: rest => some a :: some b :: some (c + v) :: rest.map some
  | l => l.map some ++ [none]

/-- The `flows` array just before the `flows[2] += itcAmount` write:
year 0 (development) `-totalDevEx`, year 1 (construction + NY-Sun)
`-totalCapEx + nySunAmount`, then the operating loop. -/
def flowsBase (riskCategories : List RiskCategory) (systemParams : SystemParameters)
    (financialParameters : FinancialParameters) : List ℚ :=
  -totalDevEx riskCategories ::
    (-totalCapEx riskCategories systemParams financialParameters +
        nySunAmount systemParams financialParameters) ::
      opLoop systemParams financialParameters 1 2 systemParams.projectLength

/-- The `expectedFlows` array just before the
`expectedFlows[2] += itcAmount * cumulativeProbability` write.  Year 0
is pushed while `cumulativeProbability` is still `1`; from year 1 on
the loop multiplies each actual flow by the (loop-invariant)
`cumulativeProbability = initialGoNoGo`. -/
def expectedFlowsBase (riskCategories : List RiskCategory) (systemParams : SystemParameters)
    (financialParameters : FinancialParameters) : List ℚ :=
  -totalDevEx riskCategories * 1 ::
    (-totalCapEx riskCategories systemParams financialParameters +
          nySunAmount systemParams financialParameters) *
        initialGoNoGo riskCategories ::
      (opLoop systemParams financialParameters 1 2 systemParams.projectLength).map
        (· * initialGoNoGo riskCategories)

/-- `npv(cashFlows, rate) = Σ cashFlows[i] / (1+rate)^i` (a `reduce`
over the array with its index). -/
def npv (cashFlows : List ℚ) (rate : ℚ) : ℚ :=
  cashFlows.enum.foldl (fun sum p => sum + p.2 / (1 + rate) ^ p.1) 0

/-- `npvDerivative(cashFlows, rate) = Σ_{i>0} -(i * cashFlows[i]) / (1+rate)^(i+1)`. -/
def npvDerivative (cashFlows : List ℚ) (rate : ℚ) : ℚ :=
  cashFlows.enum.foldl
    (fun sum p =>
      if p.1 = 0 then sum else sum - (p.1 * p.2) / (1 + rate) ^ (p.1 + 1)) 0

/-- `newtonRaphson` of `utils/cashFlowCalculations.ts`: plain damped
Newton with stopping criterion `|xNew - x| < tolerance`; when the
iteration budget is exhausted the source throws
(`"Newton-Raphson method did not converge"`), modelled as `none`. -/
def Utils.newtonRaphson (f fPrime : ℚ → ℚ) (tolerance : ℚ) : ℕ → ℚ → Option ℚ
  | 0, _ => none
  | maxIterations + 1, x =>
    let fx := f x
    let fpx := fPrime x
    let xNew := x - fx / fpx
    if |xNew - x| < tolerance then some xNew
    else Utils.newtonRaphson f fPrime tolerance maxIterations xNew

/-- The `catch` branch of `calculateIRR`: scan 100 equally spaced
rates in `[-0.5, 0.5]` and keep the rate minimising `|npv|`.
`bestNpv` starts at `Infinity`, modelled as `none`. -/
def bruteForceScan (cashFlows : List ℚ) : ℚ :=
  ((List.range 100).foldl
      (fun best i =>
        let rate : ℚ := -(1 / 2) + ((1 / 2 - -(1 / 2)) * i) / 99
        let npvValue := |npv cashFlows rate|
        match best.2 with
        | none => (rate, some npvValue)
        | some b => if npvValue < b then (rate, some npvValue) else best)
      ((0 : ℚ), (none : Option ℚ))).1

/-- `calculateIRR` of `utils/cashFlowCalculations.ts`: `0` for an
all-zero series, `0` for an all-nonnegative or all-nonpositive series,
otherwise Newton from `0.1` with tolerance `1e-5` and 100 iterations,
recovering with the brute-force scan if Newton throws.  Total: every
input yields a rational. -/
def calculateIRR (cashFlows : List ℚ) : ℚ :=
  if cashFlows.all fun cf => cf = 0 then 0
  else
    let allPositive := cashFlows.all fun cf => 0 ≤ cf
    let allNegative := cashFlows.all fun cf => cf ≤ 0
    if allPositive || allNegative then 0
    else
      match
        Utils.newtonRaphson (npv cashFlows) (npvDerivative cashFlows)
          (1 / 100000) 100 (1 / 10) with
      | some r => r
      | none => bruteForceScan cashFlows

/-- `calculateIRR` applied to an array that may hold a `NaN` entry.
On a `NaN`-free array this is `calculateIRR` on the values.  If any
entry is `NaN`, every JS comparison on it is false: the three guards
fail, `npv` is `NaN` at every rate, Newton never satisfies
`|xNew - x| < tolerance` and throws at the cap, and the brute-force
scan never updates `bestRate` (`NaN < bestNpv` is false), so the
source returns `0`. -/
def calculateIRRjs (cashFlows : List (Option ℚ)) : ℚ :=
  if cashFlows.all fun cf => cf.isSome then calculateIRR cashFlows.reduceOption
  else 0

/-- Return record of `calculateCashFlows`. -/
structure CashFlowOutput where
  flows : List (Option ℚ)
  expectedFlows : List (Option ℚ)
  successfulProjectIRR : ℚ
  portfolioIRR : ℚ
  projectsReachingNTP : ℚ
deriving Repr

/-- `calculateCashFlows` of `utils/cashFlowCalculations.ts`: builds
the two flow series (development year 0, construction year 1 with the
NY-Sun incentive, operating years 2 … projectLength+1), adds the ITC
into index 2 of both, and derives the two IRRs. -/
def calculateCashFlows (riskCategories : List RiskCategory)
    (systemParams : SystemParameters)
    (financialParameters : FinancialParameters) : CashFlowOutput :=
  let flows :=
    jsAddIndexTwo (flowsBase riskCategories systemParams financialParameters)
      (itcAmount riskCategories systemParams financialParameters)
  let expectedFlows :=
    jsAddIndexTwo (expectedFlowsBase riskCategories systemParams financialParameters)
      (itcAmount riskCategories systemParams financialParameters *
        initialGoNoGo riskCategories)
  { flows := flows
    expectedFlows := expectedFlows
    successfulProjectIRR := calculateIRRjs flows
    portfolioIRR := calculateIRRjs expectedFlows
    projectsReachingNTP := ntpProduct riskCategories }

/-- The per-element transform of `calculateCategoryIRR`'s
`riskCategories.map`: the category whose `name` matches gets
`riskLevel`, `devEx`/`capExIncrease` (selected from its Low/High
pair), `approvalRisk` and a recomputed `goNoGoProbability`; every
other category is returned unchanged. -/
def modifiedCategory (categoryName : String) (riskLevel : RiskLevel)
    (approvalRisk : ℚ) (cat : RiskCategory) : RiskCategory :=
  if cat.name = categoryName then
    { cat with
      riskLevel := riskLevel
      devEx := if riskLevel = RiskLevel.Low then cat.devExLow else cat.devExHigh
      capExIncrease :=
        if riskLevel = RiskLevel.Low then cat.capExIncreaseLow
        else cat.capExIncreaseHigh
      approvalRisk := approvalRisk
      goNoGoProbability :=
        calculateGoNoGoProbability approvalRisk cat.worstCaseScenario }
  else cat

/-- `calculateCategoryIRR` of `utils/cashFlowCalculations.ts`: run the
projector on the modified clone and return the IRR of its
`expectedFlows`. -/
def calculateCategoryIRR (categoryName : String) (riskLevel : RiskLevel)
    (approvalRisk : ℚ) (riskCategories : List RiskCategory)
    (systemParams : SystemParameters)
    (financialParameters : FinancialParameters) : ℚ :=
  let modifiedCategories :=
    riskCategories.map (modifiedCategory categoryName riskLevel approvalRisk)
  calculateIRRjs
    (calculateCashFlows modifiedCategories systemParams financialParameters).expectedFlows

/-- The 50-round bisection fallback inside the page-local
`newtonRaphson` (page.tsx lines 192–212).  `fa = f(-0.5)` is computed
once before the loop and never refreshed, exactly as in the source. -/
def bisectLoop (f : ℚ → ℚ) (tolerance fa : ℚ) : ℕ → ℚ → ℚ → ℚ
  | 0, a, b => (a + b) / 2
  | j + 1, a, b =>
    let c := (a + b) / 2
    let fc := f c
    if |fc| < tolerance then c
    else if fa * fc < 0 then bisectLoop f tolerance fa j a c
    else bisectLoop f tolerance fa j c b

/-- The loop of the page-local `newtonRaphson` (page.tsx lines
164–220).  `rand : ℕ → ℚ` supplies the successive `Math.random()`
draws (the `i`-th iteration reads `rand i`); `fuel` is the number of
remaining iterations.  When the fuel runs out the source returns the
current iterate (`return x` after the loop). -/
def nrLoop (f fPrime : ℚ → ℚ) (tolerance : ℚ) (rand : ℕ → ℚ) :
    ℕ → ℕ → ℚ → ℚ
  | 0, _, x => x
  | fuel + 1, i, x =>
    let fx := f x
    if |fx| < tolerance then x
    else
      let fPrimeX := fPrime x
      if |fPrimeX| < 1 / 10 ^ 10 then
        nrLoop f fPrime tolerance rand fuel (i + 1) (x + (rand i - 1 / 2) * (1 / 10))
      else
        let newX := x - fx / fPrimeX
        if |newX - x| < tolerance ∨ |f newX| ≥ |fx| then
          bisectLoop f tolerance (f (-(1 / 2))) 50 (-(1 / 2)) (1 / 2)
        else nrLoop f fPrime tolerance rand fuel (i + 1) newX

/-- `newtonRaphson` of page.tsx lines 164–220 (the final, page-local
IRR solver): tolerance check on `|f(x)|`, random perturbation on a
near-flat derivative, bisection fallback on stagnation, and the last
iterate — not an error — when `maxIterations` is exhausted. -/
def Page.newtonRaphson (f fPrime : ℚ → ℚ) (x0 tolerance : ℚ)
    (maxIterations : ℕ) (rand : ℕ → ℚ) : ℚ :=
  nrLoop f fPrime tolerance rand maxIterations 0 x0

/-- One continuing step of `nrLoop` at random index `i`: the
perturbation when the derivative is near-flat, the Newton step
otherwise. -/
def nrNext (f fPrime : ℚ → ℚ) (rand : ℕ → ℚ) (i : ℕ) (x : ℚ) : ℚ :=
  if |fPrime x| < 1 / 10 ^ 10 then x + (rand i - 1 / 2) * (1 / 10)
  else x - f x / fPrime x

/-- The iterate reached after `k` continuing steps of `nrLoop`
starting from `x` with random index `i`. -/
def nrIterFrom (f fPrime : ℚ → ℚ) (rand : ℕ → ℚ) : ℕ → ℕ → ℚ → ℚ
  | _, 0, x => x
  | i, k + 1, x => nrIterFrom f fPrime rand (i + 1) k (nrNext f fPrime rand i x)

/-- At iterate `x`, `nrLoop` neither returns through the tolerance
test nor enters the bisection fallback: `|f x|` is not below
tolerance, and either the derivative is near-flat (perturbation
branch) or the Newton step both moves by at least the tolerance and
strictly reduces `|f|`. -/
def noEarlyExit (f fPrime : ℚ → ℚ) (tolerance : ℚ) (x : ℚ) : Prop :=
  ¬|f x| < tolerance ∧
    (|fPrime x| < 1 / 10 ^ 10 ∨
      (¬|x - f x / fPrime x - x| < tolerance ∧ |f (x - f x / fPrime x)| < |f x|))

instance (f fPrime : ℚ → ℚ) (tolerance x : ℚ) :
    Decidable (noEarlyExit f fPrime tolerance x) := by
  unfold noEarlyExit; infer_instance

/-! ### Closed form of the operating-year loop -/

lemma opLoop_closed_from_three (sys : SystemParameters) (fin : FinancialParameters) :
    ∀ (m j : ℕ) (df : ℚ),
      opLoop sys fin df (j + 3) m =
        (List.range m).map
          (fun (k : ℕ) =>
            opEntry sys fin (df - ((k : ℚ) + 1) * sys.degradationRate) (j + k + 1)) := by
  intro m
  induction m with
  | zero => intro j df; rfl
  | succ m ih =>
    intro j df
    rw [List.range_succ_eq_map]
    simp only [List.map_cons, List.map_map]
    rw [opLoop]
    have h3 : 2 < j + 3 := by omega
    simp only [if_pos h3]
    congr 1
    · have hj : j + 3 - 2 = j + 0 + 1 := by omega
      rw [hj]
      norm_num
    · have hrec := ih (j + 1) (df - sys.degradationRate)
      have harg : j + 1 + 3 = j + 3 + 1 := by omega
      rw [harg] at hrec
      rw [hrec]
      apply List.map_congr_left
      intro k _
      simp only [Function.comp]
      have h1 : df - sys.degradationRate - ((k : ℚ) + 1) * sys.degradationRate =
          df - (((k + 1 : ℕ) : ℚ) + 1) * sys.degradationRate := by push_cast; ring
      have h2 : j + 1 + k + 1 = j + (k + 1) + 1 := by omega
      rw [h1, h2]

lemma opLoop_closed (sys : SystemParameters) (fin : FinancialParameters) (n : ℕ) :
    opLoop sys fin 1 2 n = (List.range n).map (opYearFlow sys fin) := by
  cases n with
  | zero => rfl
  | succ m =>
    rw [List.range_succ_eq_map]
    simp only [List.map_cons, List.map_map]
    rw [opLoop]
    have h3 : ¬2 < 2 := by omega
    simp only [if_neg h3]
    congr 1
    · simp [opYearFlow]
    · have hrec := opLoop_closed_from_three sys fin m 0 1
      simp only [Nat.zero_add] at hrec
      rw [hrec]
      apply List.map_congr_left
      intro k _
      simp only [Function.comp, opYearFlow, Nat.succ_eq_add_one]
      congr 1
      push_cast
      ring

/-! ### Characterisation of the two flow arrays -/

lemma flowsBase_eq (cats : List RiskCategory) (sys : SystemParameters)
    (fin : FinancialParameters) :
    flowsBase cats sys fin =
      -totalDevEx cats ::
        (-totalCapEx cats sys fin + nySunAmount sys fin) ::
          (List.range sys.projectLength).map (opYearFlow sys fin) := by
  rw [flowsBase, opLoop_closed]

lemma expectedFlowsBase_eq (cats : List RiskCategory) (sys : SystemParameters)
    (fin : FinancialParameters) :
    expectedFlowsBase cats sys fin =
      -totalDevEx cats * 1 ::
        (-totalCapEx cats sys fin + nySunAmount sys fin) * initialGoNoGo cats ::
          (List.range sys.projectLength).map
            (fun k => opYearFlow sys fin k * initialGoNoGo cats) := by
  rw [expectedFlowsBase, opLoop_closed, List.map_map]
  rfl

lemma calculateCashFlows_flows_def (cats : List RiskCategory) (sys : SystemParameters)
    (fin : FinancialParameters) :
    (calculateCashFlows cats sys fin).flows =
      jsAddIndexTwo (flowsBase cats sys fin) (itcAmount cats sys fin) := rfl

lemma calculateCashFlows_expectedFlows_def (cats : List RiskCategory)
    (sys : SystemParameters) (fin : FinancialParameters) :
    (calculateCashFlows cats sys fin).expectedFlows =
      jsAddIndexTwo (expectedFlowsBase cats sys fin)
        (itcAmount cats sys fin * initialGoNoGo cats) := rfl

lemma calculateCashFlows_portfolioIRR_def (cats : List RiskCategory)
    (sys : SystemParameters) (fin : FinancialParameters) :
    (calculateCashFlows cats sys fin).portfolioIRR =
      calculateIRRjs (calculateCashFlows cats sys fin).expectedFlows := rfl

lemma calculateCashFlows_ntp_def (cats : List RiskCategory)
    (sys : SystemParameters) (fin : FinancialParameters) :
    (calculateCashFlows cats sys fin).projectsReachingNTP = ntpProduct cats := rfl

lemma jsAddIndexTwo_cons3 (a b c v : ℚ) (rest : List ℚ) :
    jsAddIndexTwo (a :: b :: c :: rest) v =
      some a :: some b :: some (c + v) :: rest.map some := rfl

lemma jsAddIndexTwo_cons2 (a b v : ℚ) :
    jsAddIndexTwo [a, b] v = [some a, some b, none] := rfl

/-- Final `flows` array when the project has at least one operating
year: entries of years `0`, `1`, then each operating year `k + 2`,
with the ITC landing in year 2 only. -/
lemma flows_get (cats : List RiskCategory) (sys : SystemParameters)
    (fin : FinancialParameters) (m : ℕ) (hm : sys.projectLength = m + 1) :
    (calculateCashFlows cats sys fin).flows.get? 0 = some (some (-totalDevEx cats)) ∧
    (calculateCashFlows cats sys fin).flows.get? 1 =
      some (some (-totalCapEx cats sys fin + nySunAmount sys fin)) ∧
    ∀ k : ℕ,
      (calculateCashFlows cats sys fin).flows.get? (k + 2) =
        if k < sys.projectLength then
          some (some (opYearFlow sys fin k +
            if k = 0 then itcAmount cats sys fin else 0))
        else none := by
  rw [calculateCashFlows_flows_def, flowsBase_eq, hm, List.range_succ_eq_map,
    List.map_cons, jsAddIndexTwo_cons3]
  refine ⟨rfl, rfl, ?_⟩
  intro k
  match k with
  | 0 => simp
  | j + 1 =>
    simp only [List.get?_cons_succ, List.map_map, List.get?_map, List.get?_range']
    rcases Nat.lt_or_ge j m with hj | hj
    · rw [List.get?_range hj]
      simp only [Option.map_some']
      rw [if_pos (by omega), if_neg (by omega)]
      simp [Function.comp, Nat.succ_eq_add_one, add_zero]
    · rw [List.get?_eq_none.mpr (by simpa using hj)]
      rw [if_neg (by omega)]
      rfl

/-- Final `expectedFlows` array when the project has at least one
operating year: the year-0 entry is the actual flow (cumulative
probability still 1), every later entry is the actual flow scaled by
`initialGoNoGo`. -/
lemma expectedFlows_get (cats : List RiskCategory) (sys : SystemParameters)
    (fin : FinancialParameters) (m : ℕ) (hm : sys.projectLength = m + 1) :
    (calculateCashFlows cats sys fin).expectedFlows.get? 0 =
      some (some (-totalDevEx cats * 1)) ∧
    (calculateCashFlows cats sys fin).expectedFlows.get? 1 =
      some (some ((-totalCapEx cats sys fin + nySunAmount sys fin) *
        initialGoNoGo cats)) ∧
    ∀ k : ℕ,
      (calculateCashFlows cats sys fin).expectedFlows.get? (k + 2) =
        if k < sys.projectLength then
          some (some (opYearFlow sys fin k * initialGoNoGo cats +
            if k = 0 then itcAmount cats sys fin * initialGoNoGo cats else 0))
        else none := by
  rw [calculateCashFlows_expectedFlows_def, expectedFlowsBase_eq, hm,
    List.range_succ_eq_map, List.map_cons, jsAddIndexTwo_cons3]
  refine ⟨rfl, rfl, ?_⟩
  intro k
  match k with
  | 0 => simp
  | j + 1 =>
    simp only [List.get?_cons_succ, List.map_map, List.get?_map]
    rcases Nat.lt_or_ge j m with hj | hj
    · rw [List.get?_range hj]
      simp only [Option.map_some']
      rw [if_pos (by omega), if_neg (by omega)]
      simp [Function.comp, Nat.succ_eq_add_one, add_zero]
    · rw [List.get?_eq_none.mpr (by simpa using hj)]
      rw [if_neg (by omega)]
      rfl

/-- Year 0 of `expectedFlows` equals year 0 of `flows`: the cumulative
probability is still 1 when the development flow is pushed. -/
lemma expectedFlows_get_zero (cats : List RiskCategory) (sys : SystemParameters)
    (fin : FinancialParameters) :
    (calculateCashFlows cats sys fin).expectedFlows.get? 0 =
      (calculateCashFlows cats sys fin).flows.get? 0 := by
  rw [calculateCashFlows_flows_def, calculateCashFlows_expectedFlows_def,
    flowsBase_eq, expectedFlowsBase_eq]
  cases hn : sys.projectLength with
  | zero => simp [jsAddIndexTwo]
  | succ m =>
    rw [List.range_succ_eq_map, List.map_cons, List.map_cons, jsAddIndexTwo_cons3,
      jsAddIndexTwo_cons3]
    simp

/-- From year 1 on, every `expectedFlows` entry is the corresponding
`flows` entry scaled by `initialGoNoGo` (with `NaN` scaling to `NaN`,
as in JS).  This covers the post-ITC arrays: the ITC lands in index 2
of both arrays, scaled by the same factor in the expected one. -/
lemma expectedFlows_scaling (cats : List RiskCategory) (sys : SystemParameters)
    (fin : FinancialParameters) :
    ∀ i : ℕ, 1 ≤ i →
      (calculateCashFlows cats sys fin).expectedFlows.get? i =
        ((calculateCashFlows cats sys fin).flows.get? i).map
          (Option.map (· * initialGoNoGo cats)) := by
  intro i hi
  cases hn : sys.projectLength with
  | zero =>
    rw [calculateCashFlows_flows_def, calculateCashFlows_expectedFlows_def,
      flowsBase_eq, expectedFlowsBase_eq, hn]
    simp only [List.range_zero, List.map_nil]
    rw [jsAddIndexTwo_cons2, jsAddIndexTwo_cons2]
    match i, hi with
    | 1, _ => rfl
    | 2, _ => rfl
    | (j + 3), _ => rfl
  | succ m =>
    obtain ⟨hf0, hf1, hfk⟩ := flows_get cats sys fin m hn
    obtain ⟨he0, he1, hek⟩ := expectedFlows_get cats sys fin m hn
    match i, hi with
    | 1, _ => rw [hf1, he1]; rfl
    | (k + 2), _ =>
      rw [hfk k, hek k]
      by_cases hk : k < sys.projectLength
      · rw [if_pos hk, if_pos hk]
        simp only [Option.map_some']
        congr 2
        by_cases h0 : k = 0
        · rw [if_pos h0, if_pos h0]; ring
        · rw [if_neg h0, if_neg h0]; ring
      · rw [if_neg hk, if_neg hk]; rfl

/-- `calculateGoNoGoProbability` maps `approvalRisk ∈ [1,15]` and
`worstCaseScenario ∈ [0,1]` into `[0,1]`. -/
lemma goNoGo_mem_unit (a w : ℚ) (ha1 : 1 ≤ a) (ha15 : a ≤ 15)
    (hw0 : 0 ≤ w) (hw1 : w ≤ 1) :
    0 ≤ calculateGoNoGoProbability a w ∧ calculateGoNoGoProbability a w ≤ 1 := by
  unfold calculateGoNoGoProbability
  constructor <;> nlinarith [mul_nonneg (sub_nonneg.mpr hw1) (sub_nonneg.mpr ha1),
    mul_nonneg (sub_nonneg.mpr hw1) (sub_nonneg.mpr ha15)]

/-- A left fold of multiplications stays in `[0,1]` when the seed and
every factor are in `[0,1]`. -/
lemma foldl_mul_mem_unit (g : RiskCategory → ℚ) :
    ∀ (cats : List RiskCategory), (∀ c ∈ cats, 0 ≤ g c ∧ g c ≤ 1) →
      ∀ a : ℚ, 0 ≤ a → a ≤ 1 →
        0 ≤ cats.foldl (fun p c => p * g c) a ∧
          cats.foldl (fun p c => p * g c) a ≤ 1 := by
  intro cats
  induction cats with
  | nil => intro _ a h0 h1; exact ⟨h0, h1⟩
  | cons c cs ih =>
    intro hg a h0 h1
    have hc := hg c (by simp)
    simp only [List.foldl_cons]
    exact ih (fun d hd => hg d (by simp [hd])) (a * g c)
      (mul_nonneg h0 hc.1) (mul_le_one₀ h1 hc.1 hc.2)

/-- `initialGoNoGo` lies in `[0,1]` whenever every category satisfies
`approvalRisk ∈ [1,15]` and `worstCaseScenario ∈ [0,1]`. -/
lemma initialGoNoGo_mem_unit (cats : List RiskCategory)
    (h : ∀ c ∈ cats, 1 ≤ c.approvalRisk ∧ c.approvalRisk ≤ 15 ∧
      0 ≤ c.worstCaseScenario ∧ c.worstCaseScenario ≤ 1) :
    0 ≤ initialGoNoGo cats ∧ initialGoNoGo cats ≤ 1 := by
  unfold initialGoNoGo
  exact foldl_mul_mem_unit
    (fun c => calculateGoNoGoProbability c.approvalRisk c.worstCaseScenario) cats
    (fun c hc => goNoGo_mem_unit _ _ (h c hc).1 (h c hc).2.1 (h c hc).2.2.1
      (h c hc).2.2.2)
    1 (by norm_num) (by norm_num)

/-! ### Claim theorems -/

/-- C6: for every `worstCase` in `[0,1]`, the probability model sends
`approvalRisk = 1` to probability `1`, `approvalRisk = 15` to the
worst case, and is non-increasing in `approvalRisk`. -/
theorem goNoGo_endpoints_monotone (w a b : ℚ) (hw0 : 0 ≤ w) (hw1 : w ≤ 1)
    (hab : a ≤ b) :
    calculateGoNoGoProbability 1 w = 1 ∧
    calculateGoNoGoProbability 15 w = w ∧
    calculateGoNoGoProbability b w ≤ calculateGoNoGoProbability a w := by
  unfold calculateGoNoGoProbability
  refine ⟨by ring, by ring, ?_⟩
  nlinarith [mul_nonneg (sub_nonneg.mpr hw1) (sub_nonneg.mpr hab)]

/-- Witness for C6 at `w = 1/2`, `a = 3`, `b = 7`. -/
theorem goNoGo_endpoints_monotone_witness :
    calculateGoNoGoProbability 1 (1 / 2) = 1 ∧
    calculateGoNoGoProbability 15 (1 / 2) = 1 / 2 ∧
    calculateGoNoGoProbability 7 (1 / 2) ≤ calculateGoNoGoProbability 3 (1 / 2) :=
  goNoGo_endpoints_monotone (1 / 2) 3 7 (by norm_num) (by norm_num) (by norm_num)

/-- C1: for every category set and parameter snapshot with a valid
(≥ 1 operating year) `projectLength`, both arrays have length
`projectLength + 2`; index 0 is the development flow, index 1 the
construction flow, and every index `k + 2 < projectLength + 2` the
operating flow of year `k + 2` (with the ITC added at index 2). -/
theorem calculateCashFlows_year_alignment (cats : List RiskCategory)
    (sys : SystemParameters) (fin : FinancialParameters)
    (hlen : 1 ≤ sys.projectLength) :
    (calculateCashFlows cats sys fin).flows.length = sys.projectLength + 2 ∧
    (calculateCashFlows cats sys fin).expectedFlows.length = sys.projectLength + 2 ∧
    (calculateCashFlows cats sys fin).flows.get? 0 =
      some (some (-totalDevEx cats)) ∧
    (calculateCashFlows cats sys fin).flows.get? 1 =
      some (some (-totalCapEx cats sys fin + nySunAmount sys fin)) ∧
    ∀ k : ℕ, k < sys.projectLength →
      (calculateCashFlows cats sys fin).flows.get? (k + 2) =
        some (some (opYearFlow sys fin k +
          if k = 0 then itcAmount cats sys fin else 0)) := by
  obtain ⟨m, hm⟩ := Nat.exists_eq_add_of_le hlen
  have hm' : sys.projectLength = m + 1 := by omega
  obtain ⟨hf0, hf1, hfk⟩ := flows_get cats sys fin m hm'
  refine ⟨?_, ?_, hf0, hf1, fun k hk => by rw [hfk k, if_pos hk]⟩
  · rw [calculateCashFlows_flows_def, flowsBase_eq, hm', List.range_succ_eq_map,
      List.map_cons, jsAddIndexTwo_cons3]
    simp [hm']
  · rw [calculateCashFlows_expectedFlows_def, expectedFlowsBase_eq, hm',
      List.range_succ_eq_map, List.map_cons, jsAddIndexTwo_cons3]
    simp [hm']

/-- Witness for C1 on a one-category, one-operating-year project. -/
theorem calculateCashFlows_year_alignment_witness :
    (calculateCashFlows
        [{ name := "A", riskLevel := RiskLevel.Low, devEx := 100, capExIncrease := 0,
           approvalRisk := 1, goNoGoProbability := 1, devExLow := 100,
           devExHigh := 200, capExIncreaseLow := 0, capExIncreaseHigh := 0,
           worstCaseScenario := 1 / 2 }]
        { capacityFactor := 10, systemSize := 1, acSystemSize := 1,
          projectLength := 1, degradationRate := 0 }
        { baseCaseCapExPerMW := 1000, baseOpExPerMW := 0, electricityRate := 1,
          priceEscalation := 0, itcRate := 0,
          nySunIncentivePerWatt := 0 }).flows.length = 1 + 2 :=
  (calculateCashFlows_year_alignment _ _ _ (by norm_num)).1

/-- C2: `expectedFlows[0] = flows[0]`; every later entry of
`expectedFlows` is the `flows` entry times the constant
`P = initialGoNoGo`, the product over all categories of
`calculateGoNoGoProbability(approvalRisk, worstCaseScenario)` — the
ITC added at index 2 of both arrays preserves the relation — and `P`
lies in `[0,1]` whenever every category has `approvalRisk ∈ [1,15]`
and `worstCaseScenario ∈ [0,1]`. -/
theorem calculateCashFlows_probability_scaling (cats : List RiskCategory)
    (sys : SystemParameters) (fin : FinancialParameters) (i : ℕ) (hi : 1 ≤ i)
    (hdom : ∀ c ∈ cats, 1 ≤ c.approvalRisk ∧ c.approvalRisk ≤ 15 ∧
      0 ≤ c.worstCaseScenario ∧ c.worstCaseScenario ≤ 1) :
    (calculateCashFlows cats sys fin).expectedFlows.get? 0 =
      (calculateCashFlows cats sys fin).flows.get? 0 ∧
    (calculateCashFlows cats sys fin).expectedFlows.get? i =
      ((calculateCashFlows cats sys fin).flows.get? i).map
        (Option.map (· * initialGoNoGo cats)) ∧
    0 ≤ initialGoNoGo cats ∧ initialGoNoGo cats ≤ 1 :=
  ⟨expectedFlows_get_zero cats sys fin, expectedFlows_scaling cats sys fin i hi,
    (initialGoNoGo_mem_unit cats hdom).1, (initialGoNoGo_mem_unit cats hdom).2⟩

/-- Witness for C2 at a concrete one-category portfolio, year 2 (the
ITC year). -/
theorem calculateCashFlows_probability_scaling_witness :
    (calculateCashFlows
        [{ name := "A", riskLevel := RiskLevel.Low, devEx := 100, capExIncrease := 0,
           approvalRisk := 8, goNoGoProbability := 3 / 4, devExLow := 100,
           devExHigh := 200, capExIncreaseLow := 0, capExIncreaseHigh := 0,
           worstCaseScenario := 1 / 2 }]
        { capacityFactor := 10, systemSize := 1, acSystemSize := 1,
          projectLength := 2, degradationRate := 1 / 100 }
        { baseCaseCapExPerMW := 1000, baseOpExPerMW := 10, electricityRate := 50,
          priceEscalation := 1 / 50, itcRate := 3 / 10,
          nySunIncentivePerWatt := 0 }).expectedFlows.get? 2 =
      ((calculateCashFlows
        [{ name := "A", riskLevel := RiskLevel.Low, devEx := 100, capExIncrease := 0,
           approvalRisk := 8, goNoGoProbability := 3 / 4, devExLow := 100,
           devExHigh := 200, capExIncreaseLow := 0, capExIncreaseHigh := 0,
           worstCaseScenario := 1 / 2 }]
        { capacityFactor := 10, systemSize := 1, acSystemSize := 1,
          projectLength := 2, degradationRate := 1 / 100 }
        { baseCaseCapExPerMW := 1000, baseOpExPerMW := 10, electricityRate := 50,
          priceEscalation := 1 / 50, itcRate := 3 / 10,
          nySunIncentivePerWatt := 0 }).flows.get? 2).map
        (Option.map (· * initialGoNoGo
          [{ name := "A", riskLevel := RiskLevel.Low, devEx := 100, capExIncrease := 0,
             approvalRisk := 8, goNoGoProbability := 3 / 4, devExLow := 100,
             devExHigh := 200, capExIncreaseLow := 0, capExIncreaseHigh := 0,
             worstCaseScenario := 1 / 2 }])) :=
  (calculateCashFlows_probability_scaling _ _ _ 2 (by norm_num)
    (by intro c hc; simp only [List.mem_singleton] at hc; subst hc
        refine ⟨by norm_num, by norm_num, by norm_num, by norm_num⟩)).2.1

/-- System parameters with zero operating years (the C3 edge case). -/
def sysZero : SystemParameters :=
  { capacityFactor := 14, systemSize := 3, acSystemSize := 24 / 10,
    projectLength := 0, degradationRate := 1 / 200 }

/-- Representative financial parameters for the C3 edge case. -/
def finStd : FinancialParameters :=
  { baseCaseCapExPerMW := 1700000, baseOpExPerMW := 20000, electricityRate := 140,
    priceEscalation := 1 / 50, itcRate := 3 / 10, nySunIncentivePerWatt := 17 / 100 }

/-- C3 (failing input): with an empty category set and
`projectLength = 0`, the unconditional `flows[2] += itcAmount` write
runs out of range: both arrays come back with three entries, the third
being `NaN` — not the claimed well-formed two-element series of finite
numbers. -/
theorem calculateCashFlows_zero_projectLength_overflows :
    (calculateCashFlows [] sysZero finStd).flows.length = 3 ∧
    (calculateCashFlows [] sysZero finStd).flows.get? 2 = some none ∧
    (calculateCashFlows [] sysZero finStd).expectedFlows.length = 3 ∧
    (calculateCashFlows [] sysZero finStd).expectedFlows.get? 2 = some none := by
  refine ⟨rfl, rfl, rfl, rfl⟩

/-- The single category of the end-to-end scenario (C9). -/
def catC9 : RiskCategory :=
  { name := "Site Control", riskLevel := RiskLevel.Low, devEx := 7700,
    capExIncrease := 0, approvalRisk := 5, goNoGoProbability := 4 / 5,
    devExLow := 7700, devExHigh := 15000, capExIncreaseLow := 0,
    capExIncreaseHigh := 0, worstCaseScenario := 3 / 10 }

/-- System parameters of the end-to-end scenario; `acSystemSize` is
not pinned down by the scenario and stays a parameter. -/
def sysC9 (acSystemSize : ℚ) : SystemParameters :=
  { capacityFactor := 14, systemSize := 3, acSystemSize := acSystemSize,
    projectLength := 25, degradationRate := 1 / 200 }

/-- Financial parameters of the end-to-end scenario; `baseOpExPerMW`
is not pinned down by the scenario and stays a parameter. -/
def finC9 (baseOpExPerMW : ℚ) : FinancialParameters :=
  { baseCaseCapExPerMW := 1700000, baseOpExPerMW := baseOpExPerMW,
    electricityRate := 140, priceEscalation := 1 / 50, itcRate := 3 / 10,
    nySunIncentivePerWatt := 17 / 100 }

/-- C9: in the end-to-end scenario (any `acSystemSize` and
`baseOpExPerMW`), year 0 is `-7700`, year 1 is
`-(1,700,000·3) + 3·1,000,000·0.17 = -4,590,000`, and year 2 is the
first operating-year cash flow plus the ITC `0.3 · 5,100,000 =
1,530,000`. -/
theorem calculateCashFlows_end_to_end (ac opex : ℚ) :
    (calculateCashFlows [catC9] (sysC9 ac) (finC9 opex)).flows.get? 0 =
      some (some (-7700)) ∧
    (calculateCashFlows [catC9] (sysC9 ac) (finC9 opex)).flows.get? 1 =
      some (some (-4590000)) ∧
    (calculateCashFlows [catC9] (sysC9 ac) (finC9 opex)).flows.get? 2 =
      some (some (opYearFlow (sysC9 ac) (finC9 opex) 0 + 1530000)) := by
  obtain ⟨hf0, hf1, hfk⟩ := flows_get [catC9] (sysC9 ac) (finC9 opex) 24 rfl
  refine ⟨?_, ?_, ?_⟩
  · rw [hf0]
    norm_num [totalDevEx, catC9]
  · rw [hf1]
    norm_num [totalCapEx, totalCapExIncrease, nySunAmount, catC9, sysC9, finC9]
  · have h2 := hfk 0
    rw [if_pos (by norm_num [sysC9])] at h2
    rw [h2]
    norm_num [itcAmount, totalCapEx, totalCapExIncrease, catC9, sysC9, finC9]

/-- A category whose stored `goNoGoProbability` (1/4) is out of sync
with `calculateGoNoGoProbability(approvalRisk = 1, worstCase = 1/2) = 1`. -/
def catStale : RiskCategory :=
  { name := "A", riskLevel := RiskLevel.Low, devEx := 100, capExIncrease := 0,
    approvalRisk := 1, goNoGoProbability := 1 / 4, devExLow := 100,
    devExHigh := 200, capExIncreaseLow := 0, capExIncreaseHigh := 0,
    worstCaseScenario := 1 / 2 }

/-- Small single-project system parameters used in counterexamples. -/
def sysSmall : SystemParameters :=
  { capacityFactor := 10, systemSize := 1, acSystemSize := 1,
    projectLength := 1, degradationRate := 0 }

/-- Small financial parameters used in counterexamples. -/
def finSmall : FinancialParameters :=
  { baseCaseCapExPerMW := 1000, baseOpExPerMW := 0, electricityRate := 1,
    priceEscalation := 0, itcRate := 0, nySunIncentivePerWatt := 0 }

/-- C8 counterexample: `projectsReachingNTP` multiplies the *stored*
`goNoGoProbability` fields, while the year-1 expected flow is scaled
by `initialGoNoGo`, recomputed from `approvalRisk`/`worstCaseScenario`.
With the stale category the recorded value is `1/4` but the multiplier
is `1` (`flows[1] = expectedFlows[1] = -1000`), so the two are not the
same number. -/
theorem projectsReachingNTP_differs_from_multiplier :
    (calculateCashFlows [catStale] sysSmall finSmall).expectedFlows.get? 1 =
      ((calculateCashFlows [catStale] sysSmall finSmall).flows.get? 1).map
        (Option.map (· * initialGoNoGo [catStale])) ∧
    (calculateCashFlows [catStale] sysSmall finSmall).flows.get? 1 =
      some (some (-1000)) ∧
    (calculateCashFlows [catStale] sysSmall finSmall).expectedFlows.get? 1 =
      some (some (-1000)) ∧
    initialGoNoGo [catStale] = 1 ∧
    (calculateCashFlows [catStale] sysSmall finSmall).projectsReachingNTP = 1 / 4 ∧
    (calculateCashFlows [catStale] sysSmall finSmall).projectsReachingNTP ≠
      initialGoNoGo [catStale] := by
  have hflow := (flows_get [catStale] sysSmall finSmall 0 rfl).2.1
  have hexp := (expectedFlows_get [catStale] sysSmall finSmall 0 rfl).2.1
  have hP : initialGoNoGo [catStale] = 1 := by
    norm_num [initialGoNoGo, calculateGoNoGoProbability, catStale]
  refine ⟨expectedFlows_scaling _ _ _ 1 (by norm_num), ?_, ?_, hP, ?_, ?_⟩
  · rw [hflow]
    norm_num [totalCapEx, totalCapExIncrease, nySunAmount, catStale, sysSmall,
      finSmall]
  · rw [hexp, hP]
    norm_num [totalCapEx, totalCapExIncrease, nySunAmount, catStale, sysSmall,
      finSmall]
  · norm_num [calculateCashFlows_ntp_def, ntpProduct, catStale]
  · rw [hP]
    norm_num [calculateCashFlows_ntp_def, ntpProduct, catStale]

/-- C8 amended: when every category's stored `goNoGoProbability` obeys
the documented invariant (equal to
`calculateGoNoGoProbability(approvalRisk, worstCaseScenario)`),
`projectsReachingNTP` coincides with the cumulative probability that
scales every expected flow from year 1 on. -/
theorem projectsReachingNTP_eq_multiplier_of_synced (cats : List RiskCategory)
    (sys : SystemParameters) (fin : FinancialParameters)
    (hsync : ∀ c ∈ cats, c.goNoGoProbability =
      calculateGoNoGoProbability c.approvalRisk c.worstCaseScenario)
    (i : ℕ) (hi : 1 ≤ i) :
    (calculateCashFlows cats sys fin).projectsReachingNTP = initialGoNoGo cats ∧
    (calculateCashFlows cats sys fin).expectedFlows.get? i =
      ((calculateCashFlows cats sys fin).flows.get? i).map
        (Option.map (· * (calculateCashFlows cats sys fin).projectsReachingNTP)) := by
  have hntp : (calculateCashFlows cats sys fin).projectsReachingNTP =
      initialGoNoGo cats := by
    rw [calculateCashFlows_ntp_def, ntpProduct, initialGoNoGo]
    exact List.foldl_ext _ _ 1 fun a c hc => by rw [hsync c hc]
  exact ⟨hntp, by rw [hntp]; exact expectedFlows_scaling cats sys fin i hi⟩

/-- Witness for the amended C8 on a synced category. -/
theorem projectsReachingNTP_eq_multiplier_of_synced_witness :
    (calculateCashFlows
        [{ catStale with goNoGoProbability := 1 }] sysSmall finSmall).projectsReachingNTP =
      initialGoNoGo [{ catStale with goNoGoProbability := 1 }] :=
  (projectsReachingNTP_eq_multiplier_of_synced _ _ _
    (by intro c hc; simp only [List.mem_singleton] at hc; subst hc
        norm_num [catStale, calculateGoNoGoProbability])
    1 (by norm_num)).1

/-- C5: `calculateIRR` is a total function of the flow series (the
embedding returns a rational on every input; the source's only
`throw`, inside Newton, is caught and recovered by the brute-force
scan).  All-zero series, all-nonnegative series and all-nonpositive
series return exactly `0` via the guard clauses. -/
theorem calculateIRR_degenerate (l : List ℚ) :
    ((∀ x ∈ l, x = 0) → calculateIRR l = 0) ∧
    ((∀ x ∈ l, 0 ≤ x) → calculateIRR l = 0) ∧
    ((∀ x ∈ l, x ≤ 0) → calculateIRR l = 0) := by
  refine ⟨fun h => ?_, fun h => ?_, fun h => ?_⟩ <;> unfold calculateIRR
  · rw [if_pos]
    exact List.all_eq_true.mpr fun x hx => decide_eq_true (h x hx)
  · have hp : (l.all fun cf => decide (0 ≤ cf)) = true :=
      List.all_eq_true.mpr fun x hx => decide_eq_true (h x hx)
    split
    · rfl
    · simp [hp]
  · have hn : (l.all fun cf => decide (cf ≤ 0)) = true :=
      List.all_eq_true.mpr fun x hx => decide_eq_true (h x hx)
    split
    · rfl
    · simp [hn]

/-- Witness for C5: an all-zero, an all-positive and an all-negative
series. -/
theorem calculateIRR_degenerate_witness :
    calculateIRR [0, 0, 0] = 0 ∧ calculateIRR [1, 2] = 0 ∧
      calculateIRR [-3, -1] = 0 :=
  ⟨(calculateIRR_degenerate [0, 0, 0]).1 (by norm_num),
    (calculateIRR_degenerate [1, 2]).2.1 (by norm_num),
    (calculateIRR_degenerate [-3, -1]).2.2 (by norm_num)⟩

/-- C7: on the two-flow series `[-100, 110]` the solver returns
exactly `1/10` (the first Newton iterate already has `npv = 0`), well
within `1e-4` of `0.10`. -/
theorem calculateIRR_round_trip :
    |calculateIRR [-100, 110] - 1 / 10| < 1 / 10000 := by
  have hnpv : npv [-100, 110] (1 / 10) = 0 := by
    norm_num [npv, List.enum, List.enumFrom]
  have hnr : Utils.newtonRaphson (npv [-100, 110]) (npvDerivative [-100, 110])
      (1 / 100000) 100 (1 / 10) = some (1 / 10) := by
    rw [show (100 : ℕ) = 99 + 1 from rfl, Utils.newtonRaphson, hnpv]
    norm_num
  have h : calculateIRR [-100, 110] = 1 / 10 := by
    unfold calculateIRR
    rw [hnr]
    norm_num
  rw [h]
  norm_num

/-- C10: the sensitivity entry point works on a clone of the category
list — the named category gets its `riskLevel`, Low/High-selected
`devEx`/`capExIncrease`, `approvalRisk` and recomputed
`goNoGoProbability` replaced, every other category (and, the embedding
being pure, the input list itself) is untouched — and when no category
bears the name it returns the baseline `portfolioIRR`. -/
theorem calculateCategoryIRR_frame (categoryName : String) (riskLevel : RiskLevel)
    (approvalRisk : ℚ) (cats : List RiskCategory) (sys : SystemParameters)
    (fin : FinancialParameters) :
    (∀ c ∈ cats, c.name ≠ categoryName →
      modifiedCategory categoryName riskLevel approvalRisk c = c) ∧
    (∀ c ∈ cats, c.name = categoryName →
      modifiedCategory categoryName riskLevel approvalRisk c =
        { c with
          riskLevel := riskLevel
          devEx := if riskLevel = RiskLevel.Low then c.devExLow else c.devExHigh
          capExIncrease :=
            if riskLevel = RiskLevel.Low then c.capExIncreaseLow
            else c.capExIncreaseHigh
          approvalRisk := approvalRisk
          goNoGoProbability :=
            calculateGoNoGoProbability approvalRisk c.worstCaseScenario }) ∧
    ((∀ c ∈ cats, c.name ≠ categoryName) →
      calculateCategoryIRR categoryName riskLevel approvalRisk cats sys fin =
        (calculateCashFlows cats sys fin).portfolioIRR) := by
  refine ⟨fun c _ hc => by rw [modifiedCategory, if_neg hc],
    fun c _ hc => by rw [modifiedCategory, if_pos hc], fun h => ?_⟩
  unfold calculateCategoryIRR
  have hmap : cats.map (modifiedCategory categoryName riskLevel approvalRisk) =
      cats := by
    conv_rhs => rw [← List.map_id cats]
    exact List.map_congr_left fun c hc => by
      rw [modifiedCategory, if_neg (h c hc), id]
  rw [hmap, calculateCashFlows_portfolioIRR_def]

/-- Witness for C10: no category named "B", so the sensitivity IRR is
the baseline portfolio IRR. -/
theorem calculateCategoryIRR_frame_witness :
    calculateCategoryIRR "B" RiskLevel.Low 2 [catStale] sysSmall finSmall =
      (calculateCashFlows [catStale] sysSmall finSmall).portfolioIRR :=
  (calculateCategoryIRR_frame "B" RiskLevel.Low 2 [catStale] sysSmall
    finSmall).2.2
    (by intro c hc; simp only [List.mem_singleton] at hc; subst hc
        simp [catStale])

/-- As long as every visited iterate keeps the loop in a continuing
branch, `nrLoop` follows the `nrNext` trajectory and, when the fuel
runs out, returns the iterate it is at. -/
lemma nrLoop_eq_nrIterFrom (f fPrime : ℚ → ℚ) (tolerance : ℚ) (rand : ℕ → ℚ) :
    ∀ (n i : ℕ) (x : ℚ),
      (∀ k < n, noEarlyExit f fPrime tolerance (nrIterFrom f fPrime rand i k x)) →
      nrLoop f fPrime tolerance rand n i x = nrIterFrom f fPrime rand i n x := by
  intro n
  induction n with
  | zero => intro i x _; rfl
  | succ n ih =>
    intro i x h
    have h0 := h 0 (by omega)
    rw [show nrIterFrom f fPrime rand i 0 x = x from rfl] at h0
    obtain ⟨hf, hrest⟩ := h0
    have hshift : ∀ k < n, noEarlyExit f fPrime tolerance
        (nrIterFrom f fPrime rand (i + 1) k (nrNext f fPrime rand i x)) := by
      intro k hk
      have hk1 := h (k + 1) (by omega)
      rwa [show nrIterFrom f fPrime rand i (k + 1) x =
        nrIterFrom f fPrime rand (i + 1) k (nrNext f fPrime rand i x) from rfl] at hk1
    have hstep : nrIterFrom f fPrime rand i (n + 1) x =
        nrIterFrom f fPrime rand (i + 1) n (nrNext f fPrime rand i x) := rfl
    rw [nrLoop, if_neg hf, hstep]
    by_cases hflat : |fPrime x| < 1 / 10 ^ 10
    · rw [if_pos hflat]
      have hnext : x + (rand i - 1 / 2) * (1 / 10) = nrNext f fPrime rand i x := by
        rw [nrNext, if_pos hflat]
      rw [hnext]
      exact ih (i + 1) (nrNext f fPrime rand i x) hshift
    · rw [if_neg hflat]
      obtain ⟨hprog, hdesc⟩ := hrest.resolve_left hflat
      have hcond : ¬(|x - f x / fPrime x - x| < tolerance ∨
          |f (x - f x / fPrime x)| ≥ |f x|) := by
        push_neg
        exact ⟨not_lt.mp hprog, hdesc⟩
      rw [if_neg hcond]
      have hnext : x - f x / fPrime x = nrNext f fPrime rand i x := by
        rw [nrNext, if_neg hflat]
      rw [hnext]
      exact ih (i + 1) (nrNext f fPrime rand i x) hshift

/-- C4: when the page-local Newton–Raphson iteration reaches its
iteration cap without ever satisfying the `|f x| < tolerance` test
(and without entering the bisection fallback), it returns the last
iterate — the embedding's return type carries no error case, matching
the source's plain `return x` after the loop. -/
theorem newtonRaphson_cap_best_effort (f fPrime : ℚ → ℚ) (x0 tolerance : ℚ)
    (maxIterations : ℕ) (rand : ℕ → ℚ)
    (h : ∀ k < maxIterations,
      noEarlyExit f fPrime tolerance (nrIterFrom f fPrime rand 0 k x0)) :
    Page.newtonRaphson f fPrime x0 tolerance maxIterations rand =
      nrIterFrom f fPrime rand 0 maxIterations x0 :=
  nrLoop_eq_nrIterFrom f fPrime tolerance rand maxIterations 0 x0 h

/-- Witness for C4: Newton on `f(x) = x/2` with the deliberately wrong
derivative `1` halves the iterate each round; with a cap of 2
iterations starting from 4 the solver stops at the last iterate `1`. -/
theorem newtonRaphson_cap_best_effort_witness :
    Page.newtonRaphson (fun x => x / 2) (fun _ => 1) 4 (1 / 100000) 2
        (fun _ => 0) = 1 := by
  have happ := newtonRaphson_cap_best_effort (fun x => x / 2) (fun _ => 1) 4
    (1 / 100000) 2 (fun _ => 0)
    (by intro k hk
        interval_cases k <;>
          · unfold noEarlyExit
            simp only [nrIterFrom, nrNext, abs]
            norm_num)
  rw [happ]
  simp only [nrIterFrom, nrNext, abs]
  norm_num

end DeriskSolar
